import Mathlib

/-!
Verification of the oak-agent / aurelian repository's tool and
configuration layer against its natural-language specification.

The Python source is shallowly embedded: dictionaries become association
lists over a JSON-like value type, stateful dataclasses become explicit
state passing, exceptions become Except / explicit outcome types, and
external library calls (linkml_store collection search, hashlib.md5,
the filesystem) become explicit inputs to the embedded functions.
-/

/-- A JSON-like value, the shape of data carried in Python dictionaries
throughout the repository. Python dicts are modelled as association
lists in insertion order. -/
inductive JsonValue where
  | str (s : String)
  | num (n : Int)
  | boolean (b : Bool)
  | none_
  | list (xs : List JsonValue)
  | dict (kvs : List (String × JsonValue))

/-- A Python dictionary with string keys, in insertion order. -/
abbrev PyDict := List (String × JsonValue)

/-- Python truthiness of an optional string: None and the empty string are
falsy (used by expressions such as a or b and if not x on strings). -/
def pyTruthy : Option String → Bool
  | Option.none => false
  | Option.some s => !(s = "")

/-- Python a or b on optional strings: returns a when a is truthy,
otherwise b. -/
def pyOr (a b : Option String) : Option String :=
  if pyTruthy a then a else b

mutual
/-- Embeds src/src/oak_agent/utils/data_utils.py, flatten: flattening one
value. A dict value is flattened recursively; any other value is returned
unchanged (in the list branch Python applies flatten only to dict
elements, so non-dict elements never reach this function in practice). -/
def flattenValue (preserve : Option (List String)) : JsonValue → JsonValue
  | JsonValue.dict kvs => JsonValue.dict (flatten preserve kvs)
  | v => v

/-- Embeds src/src/oak_agent/utils/data_utils.py, flatten (lines 4-19):
for each key k with value v, a list value becomes the key k_count mapped
to the list length, unless preserve_keys is truthy (a non-empty list) and
contains k, in which case each element is flattened in place; a dict
value is flattened recursively; other values pass through. The
preserve_keys argument (default None in Python) is passed first here so
the dictionary can be matched structurally. -/
def flatten (preserve : Option (List String)) : PyDict → PyDict
  | [] => []
  | (k, JsonValue.list xs) :: rest =>
      (match preserve with
       | Option.some pk =>
           if pk ≠ [] ∧ k ∈ pk then (k, JsonValue.list (flattenList preserve xs))
           else (k ++ "_count", JsonValue.num xs.length)
       | Option.none => (k ++ "_count", JsonValue.num xs.length)) :: flatten preserve rest
  | (k, JsonValue.dict kvs) :: rest =>
      (k, JsonValue.dict (flatten preserve kvs)) :: flatten preserve rest
  | (k, v) :: rest => (k, v) :: flatten preserve rest

/-- Helper for the preserve_keys branch of flatten: flattens every element
of a list value. -/
def flattenList (preserve : Option (List String)) : List JsonValue → List JsonValue
  | [] => []
  | x :: xs => flattenValue preserve x :: flattenList preserve xs
end

/-- Python dictionary assignment d[k] = v: overwrites the value at an
existing key in place, otherwise appends the new key at the end. -/
def dictSet {α : Type} : List (String × α) → String → α → List (String × α)
  | [], k, v => [(k, v)]
  | (k', v') :: rest, k, v =>
      if k' = k then (k, v) :: rest else (k', v') :: dictSet rest k v

/-- Python dictionary access d.get(k) / d[k]: the value stored under key
k, if any (keys in a Python dict are unique). -/
def dictGet {α : Type} : List (String × α) → String → Option α
  | [], _ => Option.none
  | (k', v') :: rest, k => if k' = k then Option.some v' else dictGet rest k

/-- Modelled from the spec: the class WorkDir of
aurelian.dependencies.workdir is imported throughout src but its module
is not present under src. Per the spec (sections 4.2, 6 and 8) it
designates a working directory in which file-writing tools write named
files and from which files are read back; modelled as a location string
plus a file-name-to-content map. -/
structure WorkDir where
  location : String
  files : List (String × String)

/-- Modelled from the spec: writing a named file into the working
directory (WorkDir.write_file), overwriting any previous content under
that name. -/
def WorkDir.write_file (wd : WorkDir) (file_name : String) (data : String) : WorkDir :=
  { wd with files := dictSet wd.files file_name data }

/-- Modelled from the spec: reading a named file back from the working
directory (WorkDir.read_file); a missing file yields Option.none
(Python would raise). -/
def WorkDir.read_file (wd : WorkDir) (file_name : String) : Option String :=
  dictGet wd.files file_name

/-- Modelled from the spec: the default WorkDir() constructed when no
working directory is supplied; its concrete location is immaterial to
every theorem below. -/
def WorkDir.fresh : WorkDir :=
  { location := ".", files := [] }

/-- Handle to a linkml_store collection. The handle itself is external;
it is identified here by the parameters of its construction. -/
structure Collection where
  source_path : String
  db_alias : String
  name : String

/-- Models the external linkml_store construction sequence
Client() / client.attach_database(path, alias) /
client.databases[alias].get_collection(name): a fresh handle determined
by the three parameters. -/
def attachAndGetCollection (source_path : String) (db_alias : String)
    (name : String) : Collection :=
  { source_path, db_alias, name }

/-- Result of the external linkml_store collection search call
(collection.search(query, index_name, limit)): ranked rows, each a score
paired with a row dictionary. Scores are carried opaquely as JsonValue;
the code never computes with them. -/
structure QueryResult where
  ranked_rows : List (JsonValue × PyDict)

/-- Outcome of a pydantic-ai tool call: either a normal return value or a
raised ModelRetry exception carrying its message (the distinguished
retryable-error signal of the agent framework). -/
inductive ToolResult (α : Type) where
  | ok (a : α)
  | modelRetry (msg : String)

namespace GocamTools

/-- Embeds src/src/aurelian/agents/gocam/gocam_tools.py, search_gocams
(lines 18-56). The external collection.search call is an explicit input:
Except.error e models the call raising exception e (caught and wrapped in
ModelRetry by the except branch), Except.ok qr its query result. Each
ranked row is flattened, a relevancy_score key is added, and an empty
result list raises ModelRetry. -/
def search_gocams (query : String) (callResult : Except String QueryResult) :
    ToolResult (List PyDict) :=
  match callResult with
  | Except.error e => ToolResult.modelRetry ("Error searching GOCAM models: " ++ e)
  | Except.ok qr =>
      let objs := qr.ranked_rows.map
        (fun sr => dictSet (flatten Option.none sr.2) "relevancy_score" sr.1)
      if objs.isEmpty then
        ToolResult.modelRetry
          ("No GOCAM models found matching the query: " ++ query ++
            ". Try a different search term.")
      else
        ToolResult.ok objs

end GocamTools

namespace GocamFlat

/-- Embeds the superseded flat-module tool
src/src/aurelian/agents/gocam_agent.py, search (lines 54-77): same
flattening and relevancy_score enrichment as the package version, but no
emptiness check and no try/except, so an empty search result is returned
as a plain empty list. -/
def search (query : String) (qr : QueryResult) : List PyDict :=
  qr.ranked_rows.map
    (fun sr => dictSet (flatten Option.none sr.2) "relevancy_score" sr.1)

end GocamFlat

namespace Gocam

/-- Default database connection handle of
src/src/aurelian/agents/gocam/gocam_config.py (line 14). -/
def HANDLE : String := "mongodb://localhost:27017/gocams"

/-- Default database name of gocam_config.py (line 15). -/
def DB_NAME : String := "gocams"

/-- Default collection name of gocam_config.py (line 16). -/
def COLLECTION_NAME : String := "main"

/-- Embeds the dataclass GOCAMDependencies of
src/src/aurelian/agents/gocam/gocam_config.py (lines 22-46). The
workdir field comes from the HasWorkdir base class (module absent from
src; per the spec it defaults to no workdir until one is supplied). -/
structure GOCAMDependencies where
  workdir : Option WorkDir
  max_results : Int
  db_path : String
  db_name : String
  collection_name : String
  _collection : Option Collection

/-- Dataclass construction GOCAMDependencies() with every field at its
declared default: max_results 10, db_path HANDLE, db_name DB_NAME,
collection_name COLLECTION_NAME, _collection None. -/
def GOCAMDependencies.defaultInit : GOCAMDependencies :=
  { workdir := Option.none
    max_results := 10
    db_path := HANDLE
    db_name := DB_NAME
    collection_name := COLLECTION_NAME
    _collection := Option.none }

/-- Embeds the property GOCAMDependencies.collection (gocam_config.py
lines 33-46) as explicit state passing: returns the handle, the updated
dependency object, and the number of external collection constructions
this call performed (0 when the cached handle is returned, 1 when the
Client / attach_database / get_collection sequence runs). -/
def GOCAMDependencies.collectionGet (d : GOCAMDependencies) :
    Collection × GOCAMDependencies × Nat :=
  match d._collection with
  | Option.some c => (c, d, 0)
  | Option.none =>
      let c := attachAndGetCollection d.db_path d.db_name d.collection_name
      (c, { d with _collection := Option.some c }, 1)

end Gocam

namespace Rag

/-- Modelled from the spec: COLLECTION_NAME is imported from
aurelian/agents/rag/__init__.py, which is absent from src; its concrete
value is never inspected by any theorem below. -/
def COLLECTION_NAME : String := "main"

/-- Embeds the dataclass RagDependencies of
src/src/aurelian/agents/rag/rag_config.py (lines 15-40). -/
structure RagDependencies where
  workdir : Option WorkDir
  db_path : String
  collection_name : String
  max_results : Int
  max_content_len : Int
  _collection : Option Collection

/-- Dataclass construction of RagDependencies followed by its
__post_init__ (rag_config.py lines 25-29): a missing workdir is replaced
by a default WorkDir(); the remaining fields take their declared
defaults. -/
def mkRagDependencies (db_path : String) (collection_name : String)
    (workdir : Option WorkDir) : RagDependencies :=
  { workdir := Option.some (workdir.getD WorkDir.fresh)
    db_path
    collection_name
    max_results := 10
    max_content_len := 5000
    _collection := Option.none }

/-- Embeds the property RagDependencies.collection (rag_config.py lines
31-40) as explicit state passing, like GOCAMDependencies.collectionGet.
attach_database is called without an alias, so the database is registered
and looked up under db_path itself. -/
def RagDependencies.collectionGet (d : RagDependencies) :
    Collection × RagDependencies × Nat :=
  match d._collection with
  | Option.some c => (c, d, 0)
  | Option.none =>
      let c := attachAndGetCollection d.db_path d.db_path d.collection_name
      (c, { d with _collection := Option.some c }, 1)

/-- Embeds get_config of src/src/aurelian/agents/rag/rag_config.py
(lines 43-72). Environment lookups are explicit inputs:
env_rag_db_path and env_rag_collection model
os.environ.get for AURELIAN_RAG_DB_PATH and AURELIAN_RAG_COLLECTION,
env_workdir models os.environ.get for AURELIAN_WORKDIR. The raised
ValueError becomes Except.error with its message. -/
def get_config (db_path : Option String) (collection_name : Option String)
    (env_rag_db_path : Option String) (env_rag_collection : Option String)
    (env_workdir : Option String) : Except String RagDependencies :=
  let env_db_path := env_rag_db_path
  let env_collection := env_rag_collection.getD COLLECTION_NAME
  let final_db_path := pyOr db_path env_db_path
  let final_collection := pyOr collection_name (Option.some env_collection)
  if pyTruthy final_db_path then
    let workdir : Option WorkDir :=
      if pyTruthy env_workdir then
        Option.some { location := env_workdir.getD "", files := [] }
      else
        Option.none
    Except.ok (mkRagDependencies (final_db_path.getD "")
      (final_collection.getD "") workdir)
  else
    Except.error
      "Database path must be provided either as parameter or via AURELIAN_RAG_DB_PATH environment variable"

end Rag

namespace Cli

/-- Observable outcome of invoking the rag click command: either the
early return after printing an error (click maps a command function that
returns normally to process exit code 0, recorded here), or a hand-off
to run_agent with the assembled arguments. -/
inductive RagCliOutcome where
  | earlyReturn (printed : String) (exit_code : Nat)
  | ranAgent (agent_name : String) (agent_module : String) (db_path : String)
      (collection_name : Option String) (query : List String) (ui : Bool)

/-- Embeds the rag subcommand of src/src/aurelian/cli.py (lines
345-372). With a falsy db_path it prints an error and returns normally,
which under click terminates the process with exit code 0; otherwise it
forwards to run_agent, adding collection_name to the kwargs only when
truthy. -/
def rag (ui : Bool) (query : List String) (db_path : Option String)
    (collection_name : Option String) : RagCliOutcome :=
  if pyTruthy db_path then
    RagCliOutcome.ranAgent "rag" "aurelian.agents.rag" (db_path.getD "")
      (if pyTruthy collection_name then collection_name else Option.none)
      query ui
  else
    RagCliOutcome.earlyReturn "Error: --db-path is required" 0

end Cli

namespace AgentLoop

/-- Outcome of one tool execution inside the agent loop: a normal result
or the retryable-failure signal. -/
inductive ToolOutcome where
  | result (s : String)
  | retryable (msg : String)

/-- Modelled from the spec: the agent tool-call loop lives in the
external pydantic-ai framework, not under src. Final outcome per spec
sections 4.3 and 7: a final answer with its transcript, or the fatal
loop-exhaustion error when the configured maximum number of tool-call
rounds is exceeded. -/
inductive LoopResult where
  | finalAnswer (answer : String) (transcript : List String)
  | loopExhausted (transcript : List String)

/-- Decides whether a loop outcome is the fatal loop-exhaustion error. -/
def LoopResult.isExhausted : LoopResult → Bool
  | LoopResult.finalAnswer _ _ => false
  | LoopResult.loopExhausted _ => true

/-- Modelled from the spec: the tool-call loop of section 4.3, absent
from src (it is the external agent framework). Given the current
transcript, the model either emits a final answer (Sum.inl) or requests
a tool call with an argument (Sum.inr); each round executes the
requested tool, appends the exchange to the transcript, and re-prompts
the model; when the configured maximum number of rounds is exceeded the
loop stops with the fatal loop-exhaustion error carrying the partial
transcript. -/
def runLoop (model : List String → Sum String String)
    (tool : String → ToolOutcome) (maxRounds : Nat)
    (transcript : List String) : LoopResult :=
  match maxRounds with
  | 0 => LoopResult.loopExhausted transcript
  | Nat.succ n =>
      match model transcript with
      | Sum.inl answer => LoopResult.finalAnswer answer transcript
      | Sum.inr arg =>
          match tool arg with
          | ToolOutcome.result s =>
              runLoop model tool n (transcript ++ [s])
          | ToolOutcome.retryable msg =>
              runLoop model tool n (transcript ++ [msg])

/-- A tool that always signals retryable failure, as in the spec's
termination scenario. -/
def alwaysRetryTool (msg : String) : String → ToolOutcome :=
  fun _ => ToolOutcome.retryable msg

end AgentLoop

namespace Linkml

/-- Embeds the dataclass Dependencies of
src/src/aurelian/agents/linkml_agent.py (lines 16-18): a working
directory, default-constructed when not supplied. -/
structure Dependencies where
  workdir : WorkDir

/-- Embeds the tool write_to_file of linkml_agent.py (lines 117-131):
writes data into the working directory under file_name and returns a
confirmation message, as explicit state passing. -/
def write_to_file (deps : Dependencies) (data : String) (file_name : String) :
    String × Dependencies :=
  ("Data written to " ++ file_name,
    { deps with workdir := deps.workdir.write_file file_name data })

/-- Embeds the tool inspect_file of linkml_agent.py (lines 88-100):
reads a file from the working directory. -/
def inspect_file (deps : Dependencies) (data_file : String) : Option String :=
  deps.workdir.read_file data_file

end Linkml

namespace Ske

/-- Embeds the dataclass ScientificKnowledgeExtractionDependencies of
src/src/aurelian/agents/scientific_knowledge_extraction/scientific_knowledge_extraction_config.py
(lines 13-30), after __post_init__ has fixed the cache directory. The
type parameter κ is the (opaque) type of extracted knowledge items; the
processed-hash set is a list with set semantics and the knowledge cache
a hash-to-list map. Disk persistence of the cache (save_cache /
_load_cache) is outside this model; the claims concern the in-memory
state. -/
structure ScientificKnowledgeExtractionDependencies (κ : Type) where
  pdf_directory : String
  cache_directory : String
  max_pdfs : Int
  _processed_hashes : List String
  _knowledge_cache : List (String × List κ)

/-- Embeds get_file_hash (config lines 72-81) over an explicit
filesystem fs mapping full paths to file contents, with the external
hashlib.md5 hexdigest passed as the function md5. For a present file the
hash of its contents is returned. For a missing file both the read and
the os.path.getsize fallback raise, so the exception propagates,
modelled as Except.error. -/
def get_file_hash (md5 : String → String) (fs : List (String × String))
    (file_path : String) : Except String String :=
  match dictGet fs file_path with
  | Option.some content => Except.ok (md5 content)
  | Option.none => Except.error ("Failed to hash file " ++ file_path)

/-- Embeds is_processed (config lines 83-86): a file is processed when
its content hash is in the processed-hash set. -/
def is_processed {κ : Type} (md5 : String → String)
    (fs : List (String × String))
    (d : ScientificKnowledgeExtractionDependencies κ) (file_path : String) :
    Except String Bool :=
  (get_file_hash md5 fs file_path).map
    (fun h => d._processed_hashes.contains h)

/-- Embeds mark_as_processed (config lines 88-97): adds the file's hash
to the processed set and, when the knowledge list is truthy (non-empty),
stores it in the knowledge cache under that hash. The trailing
save_cache disk write is outside this model. -/
def mark_as_processed {κ : Type} (md5 : String → String)
    (fs : List (String × String))
    (d : ScientificKnowledgeExtractionDependencies κ) (file_path : String)
    (knowledge : List κ) :
    Except String (ScientificKnowledgeExtractionDependencies κ) :=
  (get_file_hash md5 fs file_path).map
    (fun h =>
      { d with
        _processed_hashes :=
          if d._processed_hashes.contains h then d._processed_hashes
          else h :: d._processed_hashes
        _knowledge_cache :=
          if knowledge.isEmpty then d._knowledge_cache
          else dictSet d._knowledge_cache h knowledge })

/-- Embeds get_cached_knowledge (config lines 99-102): the cache entry
for the file's hash, if any. -/
def get_cached_knowledge {κ : Type} (md5 : String → String)
    (fs : List (String × String))
    (d : ScientificKnowledgeExtractionDependencies κ) (file_path : String) :
    Except String (Option (List κ)) :=
  (get_file_hash md5 fs file_path).map
    (fun h => dictGet d._knowledge_cache h)

/-- Listing of the pdf_directory: whether the directory exists
(os.path.exists) and its entries in os.listdir order, each a file name
paired with that file's contents. -/
structure PdfDirListing where
  dirExists : Bool
  entries : List (String × String)

/-- View of the pdf directory as a filesystem keyed by full path: each
entry filename is joined to the directory with os.path.join, as
get_unprocessed_pdfs does before calling is_processed. -/
def dirFs (pdf_directory : String) (dir : PdfDirListing) :
    List (String × String) :=
  dir.entries.map (fun e => (pdf_directory ++ "/" ++ e.1, e.2))

/-- Python filename.lower().endswith(".pdf") computed on the character
sequence: str.lower maps each character to lower case (as Char.toLower
does) and endswith tests the suffix. -/
def lowerEndsWithPdf (filename : String) : Bool :=
  ".pdf".data.isSuffixOf (filename.data.map Char.toLower)

/-- Loop body of get_unprocessed_pdfs (config lines 111-115): keeps the
joined path pdf_directory/filename of every entry whose name lowercased
ends in .pdf and whose content hash is not yet processed. The inner
is_processed(file_path) hashes the file at the joined path, which is the
entry's own content. -/
def collectUnprocessed (md5 : String → String) (pdf_directory : String)
    (hashes : List String) : List (String × String) → List String
  | [] => []
  | (filename, content) :: rest =>
      if lowerEndsWithPdf filename then
        if hashes.contains (md5 content) then
          collectUnprocessed md5 pdf_directory hashes rest
        else
          (pdf_directory ++ "/" ++ filename) ::
            collectUnprocessed md5 pdf_directory hashes rest
      else
        collectUnprocessed md5 pdf_directory hashes rest

/-- Embeds get_unprocessed_pdfs (config lines 104-121): empty when the
directory does not exist; otherwise the unprocessed .pdf entries, cut to
the first max_pdfs when max_pdfs is positive (0 means no limit). -/
def get_unprocessed_pdfs {κ : Type} (md5 : String → String)
    (d : ScientificKnowledgeExtractionDependencies κ)
    (dir : PdfDirListing) : List String :=
  if dir.dirExists then
    let pdf_files :=
      collectUnprocessed md5 d.pdf_directory d._processed_hashes dir.entries
    if d.max_pdfs > 0 then pdf_files.take d.max_pdfs.toNat else pdf_files
  else
    []

end Ske

/-!
Helper lemmas about the dictionary model, shared by several theorems
below.
-/

theorem dictGet_dictSet_self {α : Type} (l : List (String × α)) (k : String) (v : α) :
    dictGet (dictSet l k v) k = Option.some v := by
  induction l with
  | nil => simp [dictSet, dictGet]
  | cons hd tl ih =>
      obtain ⟨k', v'⟩ := hd
      by_cases h : k' = k
      · simp [dictSet, dictGet, h]
      · simp [dictSet, dictGet, h, ih]

theorem dictGet_dictSet_ne {α : Type} (l : List (String × α)) (k k' : String) (v : α)
    (h : k' ≠ k) : dictGet (dictSet l k v) k' = dictGet l k' := by
  induction l with
  | nil => simp [dictSet, dictGet, Ne.symm h]
  | cons hd tl ih =>
      obtain ⟨k0, v0⟩ := hd
      by_cases h0 : k0 = k
      · subst h0
        simp [dictSet, dictGet, Ne.symm h]
      · simp only [dictSet, if_neg h0]
        by_cases h1 : k0 = k'
        · simp [dictGet, h1]
        · simp [dictGet, h1, ih]

theorem string_append_left_cancel {s a b : String} (h : s ++ a = s ++ b) :
    a = b := by
  apply String.ext
  have hd := congrArg String.data h
  simp only [String.data_append] at hd
  exact List.append_cancel_left hd

theorem dictGet_dirFs {pd : String} {entries : List (String × String)}
    {f c : String} (hnd : (entries.map Prod.fst).Nodup)
    (hm : (f, c) ∈ entries) :
    dictGet (entries.map (fun e => (pd ++ "/" ++ e.1, e.2))) (pd ++ "/" ++ f) =
      Option.some c := by
  induction entries with
  | nil => simp at hm
  | cons hd tl ih =>
      obtain ⟨f0, c0⟩ := hd
      rw [List.map_cons, List.nodup_cons] at hnd
      simp only [List.map_cons, dictGet]
      rcases List.mem_cons.mp hm with heq | hmem
      · obtain ⟨hf, hc⟩ := Prod.mk.injEq f c f0 c0 ▸ heq
        subst hf
        subst hc
        rw [if_pos rfl]
      · have hf_mem : f ∈ tl.map Prod.fst := List.mem_map_of_mem Prod.fst hmem
        have hne : f0 ≠ f := fun hfe => hnd.1 (hfe ▸ hf_mem)
        have hkey : pd ++ "/" ++ f0 ≠ pd ++ "/" ++ f :=
          fun hk => hne (string_append_left_cancel hk)
        rw [if_neg hkey]
        exact ih hnd.2 hmem

theorem mem_collectUnprocessed {md5 : String → String} {pd : String}
    {hashes : List String} {entries : List (String × String)} {p : String}
    (hp : p ∈ Ske.collectUnprocessed md5 pd hashes entries) :
    ∃ f c, (f, c) ∈ entries ∧ p = pd ++ "/" ++ f ∧
      Ske.lowerEndsWithPdf f = true ∧
      hashes.contains (md5 c) = false := by
  induction entries with
  | nil => simp [Ske.collectUnprocessed] at hp
  | cons hd tl ih =>
      obtain ⟨f0, c0⟩ := hd
      simp only [Ske.collectUnprocessed] at hp
      by_cases hpdf : Ske.lowerEndsWithPdf f0 = true
      · rw [if_pos hpdf] at hp
        by_cases hproc : hashes.contains (md5 c0) = true
        · rw [if_pos hproc] at hp
          obtain ⟨f, c, hmem, rest⟩ := ih hp
          exact ⟨f, c, List.mem_cons_of_mem _ hmem, rest⟩
        · rw [if_neg hproc] at hp
          rcases List.mem_cons.mp hp with hpe | hp2
          · exact ⟨f0, c0, List.mem_cons_self _ _, hpe, hpdf,
              Bool.eq_false_iff.mpr hproc⟩
          · obtain ⟨f, c, hmem, rest⟩ := ih hp2
            exact ⟨f, c, List.mem_cons_of_mem _ hmem, rest⟩
      · rw [if_neg hpdf] at hp
        obtain ⟨f, c, hmem, rest⟩ := ih hp
        exact ⟨f, c, List.mem_cons_of_mem _ hmem, rest⟩

theorem pyTruthy_getD_ne {o : Option String} (h : pyTruthy o = true) :
    o.getD "" ≠ "" := by
  cases o with
  | none => simp [pyTruthy] at h
  | some s =>
      simp only [Option.getD_some]
      simp [pyTruthy] at h
      exact h

/-!
Claim theorems.
-/

/-- C1 (counterexample): the claim quantifies over every tool function,
but the superseded flat-module GO-CAM search tool
(src/src/aurelian/agents/gocam_agent.py, search) returns a search with
zero matching results as a plain empty list: a silent empty final
success, with no retryable-error signal raised. -/
theorem flat_search_empty_returns_silent_empty :
    GocamFlat.search "a query with zero matches" { ranked_rows := [] } = [] := rfl

/-- C1 (amended): the package tool search_gocams
(src/src/aurelian/agents/gocam/gocam_tools.py) raises ModelRetry with an
explanatory message whenever the collection search produces an empty
result list, never returning the empty list as a silent final success;
the universal part of the claim fails only for the superseded
flat-module tool. -/
theorem search_gocams_empty_result_raises_model_retry (query : String)
    (qr : QueryResult) (h : qr.ranked_rows = []) :
    GocamTools.search_gocams query (Except.ok qr) =
      ToolResult.modelRetry ("No GOCAM models found matching the query: " ++ query ++
        ". Try a different search term.") := by
  simp [GocamTools.search_gocams, h]

/-- C1 (witness): the amended theorem applied to a concrete empty search
result. -/
theorem search_gocams_empty_result_raises_model_retry_witness :
    GocamTools.search_gocams "apoptosis regulation" (Except.ok { ranked_rows := [] }) =
      ToolResult.modelRetry ("No GOCAM models found matching the query: " ++
        "apoptosis regulation" ++ ". Try a different search term.") :=
  search_gocams_empty_result_raises_model_retry "apoptosis regulation"
    { ranked_rows := [] } rfl

/-- C2: for both GOCAMDependencies and RagDependencies, calling the
collection accessor a second time after a first call returns the
identical handle the first call returned, leaves the dependency object
unchanged, and performs zero new external constructions (idempotent lazy
construction). -/
theorem collection_accessor_idempotent (d : Gocam.GOCAMDependencies)
    (r : Rag.RagDependencies) :
    (d.collectionGet.2.1.collectionGet.1 = d.collectionGet.1 ∧
      d.collectionGet.2.1.collectionGet.2.1 = d.collectionGet.2.1 ∧
      d.collectionGet.2.1.collectionGet.2.2 = 0) ∧
    (r.collectionGet.2.1.collectionGet.1 = r.collectionGet.1 ∧
      r.collectionGet.2.1.collectionGet.2.1 = r.collectionGet.2.1 ∧
      r.collectionGet.2.1.collectionGet.2.2 = 0) := by
  constructor
  · rcases d with ⟨w, m, dp, dn, cn, c⟩
    cases c <;> simp [Gocam.GOCAMDependencies.collectionGet]
  · rcases r with ⟨w, dp, cn, m, mc, c⟩
    cases c <;> simp [Rag.RagDependencies.collectionGet]

/-- C3 (code evaluation): invoking the rag CLI subcommand in direct-query
mode without --db-path prints an error message but returns normally from
the command function, which click turns into process exit code 0 - not
the non-zero exit code the claim requires for a configuration error. -/
theorem rag_cli_missing_db_path_exits_zero :
    Cli.rag false ["some query"] Option.none Option.none =
      Cli.RagCliOutcome.earlyReturn "Error: --db-path is required" 0 := rfl

/-- C4: get_config with no db_path argument and no AURELIAN_RAG_DB_PATH
environment value raises ValueError (modelled as Except.error) whatever
the other inputs are; and whenever get_config does return a
RagDependencies, its db_path is a non-empty string. -/
theorem rag_get_config_requires_db_path (collection_name env_coll env_workdir :
    Option String) :
    (Rag.get_config Option.none collection_name Option.none env_coll env_workdir =
      Except.error "Database path must be provided either as parameter or via AURELIAN_RAG_DB_PATH environment variable") ∧
    (∀ (db_path env_db : Option String) (d : Rag.RagDependencies),
      Rag.get_config db_path collection_name env_db env_coll env_workdir =
        Except.ok d →
      d.db_path ≠ "") := by
  constructor
  · simp [Rag.get_config, pyOr, pyTruthy]
  · intro db_path env_db d h
    by_cases ht : pyTruthy (pyOr db_path env_db)
    · have hd : Rag.mkRagDependencies ((pyOr db_path env_db).getD "")
          ((pyOr collection_name
            (Option.some (env_coll.getD Rag.COLLECTION_NAME))).getD "")
          (if pyTruthy env_workdir then
            Option.some { location := env_workdir.getD "", files := [] }
          else Option.none) = d := by
        simpa [Rag.get_config, ht] using h
      rw [← hd]
      simpa [Rag.mkRagDependencies] using pyTruthy_getD_ne ht
    · simp [Rag.get_config, ht] at h

/-- C4 (witness): the theorem applied with every input absent for the
error half, and at a concrete database path for the non-empty half. -/
theorem rag_get_config_requires_db_path_witness :
    (Rag.get_config Option.none Option.none Option.none Option.none Option.none =
      Except.error "Database path must be provided either as parameter or via AURELIAN_RAG_DB_PATH environment variable") ∧
    (Rag.mkRagDependencies "docs.db" Rag.COLLECTION_NAME Option.none).db_path ≠ "" :=
  ⟨(rag_get_config_requires_db_path Option.none Option.none Option.none).1,
   (rag_get_config_requires_db_path Option.none Option.none Option.none).2
     (Option.some "docs.db") Option.none
     (Rag.mkRagDependencies "docs.db" Rag.COLLECTION_NAME Option.none) rfl⟩

/-- C5: constructing a dependency object does not construct its external
handle. A default-constructed GOCAMDependencies and any
freshly-constructed RagDependencies carry _collection = None, and the
accessor called on a state whose cache is still None builds the handle
exactly then (one construction), stores it, and returns it. -/
theorem dependencies_lazy_construction :
    Gocam.GOCAMDependencies.defaultInit._collection = Option.none ∧
    (∀ (db_path collection_name : String) (wd : Option WorkDir),
      (Rag.mkRagDependencies db_path collection_name wd)._collection =
        Option.none) ∧
    (∀ d : Gocam.GOCAMDependencies, d._collection = Option.none →
      d.collectionGet =
        (attachAndGetCollection d.db_path d.db_name d.collection_name,
          { d with _collection :=
              Option.some (attachAndGetCollection d.db_path d.db_name
                d.collection_name) }, 1)) ∧
    (∀ r : Rag.RagDependencies, r._collection = Option.none →
      r.collectionGet =
        (attachAndGetCollection r.db_path r.db_path r.collection_name,
          { r with _collection :=
              Option.some (attachAndGetCollection r.db_path r.db_path
                r.collection_name) }, 1)) := by
  refine ⟨rfl, fun _ _ _ => rfl, ?_, ?_⟩
  · intro d h
    simp [Gocam.GOCAMDependencies.collectionGet, h]
  · intro r h
    simp [Rag.RagDependencies.collectionGet, h]

/-- C5 (witness): the lazy-construction theorem applied to the
default-constructed GOCAMDependencies, whose cache is None by
construction. -/
theorem dependencies_lazy_construction_witness :
    Gocam.GOCAMDependencies.defaultInit.collectionGet =
      (attachAndGetCollection Gocam.GOCAMDependencies.defaultInit.db_path
          Gocam.GOCAMDependencies.defaultInit.db_name
          Gocam.GOCAMDependencies.defaultInit.collection_name,
        { Gocam.GOCAMDependencies.defaultInit with _collection :=
            (Option.some (attachAndGetCollection
              Gocam.GOCAMDependencies.defaultInit.db_path
              Gocam.GOCAMDependencies.defaultInit.db_name
              Gocam.GOCAMDependencies.defaultInit.collection_name)) }, 1) :=
  dependencies_lazy_construction.2.2.1 Gocam.GOCAMDependencies.defaultInit rfl

/-- C6: after the linkml agent's write_to_file tool writes "id: x\n"
under the name schema.yaml, inspect_file on schema.yaml returns exactly
"id: x\n"; the tool reports the write, leaves the working-directory
location untouched, and changes no other file of the working directory
(writes stay inside the designated working directory). The WorkDir file
store itself is modelled from the spec, its module being absent from
src. -/
theorem write_then_read_roundtrip (deps : Linkml.Dependencies) :
    Linkml.inspect_file (Linkml.write_to_file deps "id: x\n" "schema.yaml").2
      "schema.yaml" = Option.some "id: x\n" ∧
    (Linkml.write_to_file deps "id: x\n" "schema.yaml").1 =
      "Data written to schema.yaml" ∧
    (Linkml.write_to_file deps "id: x\n" "schema.yaml").2.workdir.location =
      deps.workdir.location ∧
    (∀ f : String, f ≠ "schema.yaml" →
      Linkml.inspect_file (Linkml.write_to_file deps "id: x\n" "schema.yaml").2 f =
        Linkml.inspect_file deps f) := by
  refine ⟨?_, rfl, rfl, ?_⟩
  · simp [Linkml.inspect_file, Linkml.write_to_file, WorkDir.read_file,
      WorkDir.write_file, dictGet_dictSet_self]
  · intro f hf
    simp [Linkml.inspect_file, Linkml.write_to_file, WorkDir.read_file,
      WorkDir.write_file, dictGet_dictSet_ne _ _ _ _ hf]

/-- C6 (witness): the round-trip theorem applied to a fresh working
directory, with notes.txt as the unaffected other file. -/
theorem write_then_read_roundtrip_witness :
    Linkml.inspect_file
      (Linkml.write_to_file { workdir := WorkDir.fresh } "id: x\n" "schema.yaml").2
      "schema.yaml" = Option.some "id: x\n" ∧
    Linkml.inspect_file
      (Linkml.write_to_file { workdir := WorkDir.fresh } "id: x\n" "schema.yaml").2
      "notes.txt" = Linkml.inspect_file { workdir := WorkDir.fresh } "notes.txt" :=
  ⟨(write_then_read_roundtrip { workdir := WorkDir.fresh }).1,
   (write_then_read_roundtrip { workdir := WorkDir.fresh }).2.2.2 "notes.txt"
     (by decide)⟩

/-- C7 (counterexample): the dictionary handed to the agent by
search_gocams is not the verbatim row the external library returned: the
row is flattened (its list value genes becomes the count key
genes_count) and a relevancy_score key is added, so the resulting
dictionary differs from the row. -/
theorem search_gocams_result_not_verbatim_row :
    GocamTools.search_gocams "apoptosis"
      (Except.ok { ranked_rows := [(JsonValue.num 5,
        [("id", JsonValue.str "gomodel:123"),
         ("genes", JsonValue.list [JsonValue.str "a", JsonValue.str "b"])])] }) =
      ToolResult.ok [[("id", JsonValue.str "gomodel:123"),
        ("genes_count", JsonValue.num 2),
        ("relevancy_score", JsonValue.num 5)]] ∧
    ([("id", JsonValue.str "gomodel:123"),
      ("genes_count", JsonValue.num 2),
      ("relevancy_score", JsonValue.num 5)] : PyDict) ≠
      [("id", JsonValue.str "gomodel:123"),
       ("genes", JsonValue.list [JsonValue.str "a", JsonValue.str "b"])] := by
  refine ⟨?_, fun h => ?_⟩
  · simp [GocamTools.search_gocams, flatten, dictSet, List.isEmpty]
  · have := congrArg List.length h
    simp at this

/-- C7 (amended): each tool-result dictionary of the GO-CAM search is
the flattened external row with an added relevancy_score key - a
deterministic function of the row, but not the verbatim row itself; the
list of result dictionaries is handed to the agent loop without any
further transformation. -/
theorem search_gocams_returns_flattened_rows (query : String) (qr : QueryResult)
    (h : qr.ranked_rows ≠ []) :
    GocamTools.search_gocams query (Except.ok qr) =
      ToolResult.ok (qr.ranked_rows.map
        (fun sr => dictSet (flatten Option.none sr.2) "relevancy_score" sr.1)) := by
  have hne : (qr.ranked_rows.map
      (fun sr => dictSet (flatten Option.none sr.2) "relevancy_score" sr.1)).isEmpty
        = false := by
    simp [List.isEmpty_eq_false, h]
  simp [GocamTools.search_gocams, hne]

/-- C7 (witness): the amended theorem applied to a one-row search
result. -/
theorem search_gocams_returns_flattened_rows_witness :
    GocamTools.search_gocams "pathway"
      (Except.ok { ranked_rows := [(JsonValue.num 1, [("title", JsonValue.str "t")])] }) =
      ToolResult.ok ([(JsonValue.num 1,
        ([("title", JsonValue.str "t")] : PyDict))].map
        (fun sr => dictSet (flatten Option.none sr.2) "relevancy_score" sr.1)) :=
  search_gocams_returns_flattened_rows "pathway"
    { ranked_rows := [(JsonValue.num 1, [("title", JsonValue.str "t")])] }
    (by simp)

/-- C8: the agent tool-call loop (modelled from the spec, since it lives
in the external agent framework), when driven with a tool that always
signals retryable failure and a model that keeps requesting tool calls,
always terminates, and terminates with the fatal loop-exhaustion error
once the configured maximum number of rounds is spent - never an
infinite loop. -/
theorem loop_always_retry_exhausts (model : List String → Sum String String)
    (msg : String) (maxRounds : Nat) (transcript : List String)
    (hmodel : ∀ ts, ∃ arg, model ts = Sum.inr arg) :
    (AgentLoop.runLoop model (AgentLoop.alwaysRetryTool msg) maxRounds
      transcript).isExhausted = true := by
  induction maxRounds generalizing transcript with
  | zero => rfl
  | succ n ih =>
      obtain ⟨arg, harg⟩ := hmodel transcript
      simp [AgentLoop.runLoop, harg, AgentLoop.alwaysRetryTool, ih]

/-- C8 (witness): the loop-exhaustion theorem at a concrete model that
always requests a tool call, a concrete retryable message and three
configured rounds. -/
theorem loop_always_retry_exhausts_witness :
    (AgentLoop.runLoop (fun _ => Sum.inr "search")
      (AgentLoop.alwaysRetryTool "no results, try a different query") 3
      []).isExhausted = true :=
  loop_always_retry_exhausts (fun _ => Sum.inr "search")
    "no results, try a different query" 3 []
    (fun _ => ⟨"search", rfl⟩)

/-- C9: every path returned by get_unprocessed_pdfs names an entry of
the pdf directory (joined to pdf_directory), whose file name ends in
.pdf case-insensitively and which is_processed reports as unprocessed;
and when max_pdfs is positive the returned list has length at most
max_pdfs (max_pdfs = 0 imposes no limit, the list being returned whole).
Distinct names in one directory listing are assumed, as a real directory
guarantees. -/
theorem get_unprocessed_pdfs_spec {κ : Type} (md5 : String → String)
    (d : Ske.ScientificKnowledgeExtractionDependencies κ)
    (dir : Ske.PdfDirListing)
    (hnd : (dir.entries.map Prod.fst).Nodup) :
    (∀ p ∈ Ske.get_unprocessed_pdfs md5 d dir,
      ∃ f c, (f, c) ∈ dir.entries ∧ p = d.pdf_directory ++ "/" ++ f ∧
        Ske.lowerEndsWithPdf f = true ∧
        Ske.is_processed md5 (Ske.dirFs d.pdf_directory dir) d p =
          Except.ok false) ∧
    (0 < d.max_pdfs →
      (Ske.get_unprocessed_pdfs md5 d dir).length ≤ d.max_pdfs.toNat) := by
  constructor
  · intro p hp
    by_cases hex : dir.dirExists = true
    · have hp2 : p ∈ Ske.collectUnprocessed md5 d.pdf_directory
          d._processed_hashes dir.entries := by
        by_cases hmax : d.max_pdfs > 0
        · simp only [Ske.get_unprocessed_pdfs, hex, if_pos, if_true,
            if_pos hmax] at hp
          exact List.take_subset _ _ hp
        · simp only [Ske.get_unprocessed_pdfs, hex, if_true,
            if_neg hmax] at hp
          exact hp
      obtain ⟨f, c, hmem, hpf, hpdf, hcont⟩ := mem_collectUnprocessed hp2
      refine ⟨f, c, hmem, hpf, hpdf, ?_⟩
      have hget : Ske.get_file_hash md5 (Ske.dirFs d.pdf_directory dir) p =
          Except.ok (md5 c) := by
        rw [hpf]
        simp [Ske.get_file_hash, Ske.dirFs, dictGet_dirFs hnd hmem]
      have hnomem : md5 c ∉ d._processed_hashes := by simpa using hcont
      simp [Ske.is_processed, hget, Except.map, hcont, hnomem]
    · simp only [Ske.get_unprocessed_pdfs, hex] at hp
      simp at hp
  · intro hmax
    by_cases hex : dir.dirExists = true
    · simp only [Ske.get_unprocessed_pdfs, hex, if_true, if_pos hmax]
      exact List.length_take_le _ _
    · simp [Ske.get_unprocessed_pdfs, hex]

/-- Concrete pdf-directory scenario for the C9 witness: three entries,
one already processed (hash HB), one not a pdf; the hash function tags
contents with H. -/
def hashFn : String → String := fun s => "H" ++ s

/-- Concrete dependency state for the C9 witness: max_pdfs 1 and HB
already processed. -/
def skeD : Ske.ScientificKnowledgeExtractionDependencies String :=
  { pdf_directory := "papers"
    cache_directory := "papers/.scientific_knowledge_cache"
    max_pdfs := 1
    _processed_hashes := ["HB"]
    _knowledge_cache := [] }

/-- Concrete directory listing for the C9 witness. -/
def skeDir : Ske.PdfDirListing :=
  { dirExists := true
    entries := [("a.pdf", "A"), ("b.PDF", "B"), ("c.txt", "C")] }

/-- C9 (witness): the specification theorem applied to the concrete
scenario, at the single returned path papers/a.pdf. -/
theorem get_unprocessed_pdfs_spec_witness :
    (∃ f c, (f, c) ∈ skeDir.entries ∧
      "papers/a.pdf" = skeD.pdf_directory ++ "/" ++ f ∧
      Ske.lowerEndsWithPdf f = true ∧
      Ske.is_processed hashFn (Ske.dirFs skeD.pdf_directory skeDir) skeD
        "papers/a.pdf" = Except.ok false) ∧
    (Ske.get_unprocessed_pdfs hashFn skeD skeDir).length ≤ skeD.max_pdfs.toNat :=
  ⟨(get_unprocessed_pdfs_spec hashFn skeD skeDir (by decide)).1
     "papers/a.pdf" (by decide),
   (get_unprocessed_pdfs_spec hashFn skeD skeDir (by decide)).2 (by decide)⟩

/-- C10: for a file whose contents (hence hash) are unchanged, after
mark_as_processed with a non-empty knowledge list, is_processed reports
true and get_cached_knowledge returns exactly that list; and while no
file with this hash has been marked, get_cached_knowledge returns
None. -/
theorem mark_then_query_cached {κ : Type} (md5 : String → String)
    (fs : List (String × String))
    (d : Ske.ScientificKnowledgeExtractionDependencies κ)
    (file_path content : String) (knowledge : List κ)
    (hfile : dictGet fs file_path = Option.some content)
    (hne : knowledge ≠ []) :
    (dictGet d._knowledge_cache (md5 content) = Option.none →
      Ske.get_cached_knowledge md5 fs d file_path = Except.ok Option.none) ∧
    ∃ d2, Ske.mark_as_processed md5 fs d file_path knowledge = Except.ok d2 ∧
      Ske.is_processed md5 fs d2 file_path = Except.ok true ∧
      Ske.get_cached_knowledge md5 fs d2 file_path =
        Except.ok (Option.some knowledge) := by
  have hki : knowledge.isEmpty = false := by simp [hne]
  constructor
  · intro hnone
    simp [Ske.get_cached_knowledge, Ske.get_file_hash, hfile, Except.map, hnone]
  · refine ⟨{ d with
        _processed_hashes :=
          if d._processed_hashes.contains (md5 content) then
            d._processed_hashes
          else md5 content :: d._processed_hashes,
        _knowledge_cache := dictSet d._knowledge_cache (md5 content) knowledge },
      ?_, ?_, ?_⟩
    · simp [Ske.mark_as_processed, Ske.get_file_hash, hfile, Except.map, hki]
    · cases hc : d._processed_hashes.contains (md5 content) with
      | true =>
          have hin : md5 content ∈ d._processed_hashes := by simpa using hc
          simp [Ske.is_processed, Ske.get_file_hash, hfile, Except.map, hc, hin]
      | false =>
          simp [Ske.is_processed, Ske.get_file_hash, hfile, Except.map, hc]
    · simp [Ske.get_cached_knowledge, Ske.get_file_hash, hfile, Except.map,
        dictGet_dictSet_self]

/-- Concrete dependency state for the C10 witness: nothing processed and
an empty knowledge cache. -/
def skeD0 : Ske.ScientificKnowledgeExtractionDependencies String :=
  { pdf_directory := "papers"
    cache_directory := "papers/.scientific_knowledge_cache"
    max_pdfs := 0
    _processed_hashes := []
    _knowledge_cache := [] }

/-- C10 (witness): the caching theorem applied to a concrete file,
content and knowledge list, starting from an empty cache. -/
theorem mark_then_query_cached_witness :
    Ske.get_cached_knowledge hashFn [("papers/a.pdf", "A")] skeD0
      "papers/a.pdf" = Except.ok Option.none ∧
    ∃ d2, Ske.mark_as_processed hashFn [("papers/a.pdf", "A")] skeD0
        "papers/a.pdf" ["geneX activates geneY"] = Except.ok d2 ∧
      Ske.is_processed hashFn [("papers/a.pdf", "A")] d2 "papers/a.pdf" =
        Except.ok true ∧
      Ske.get_cached_knowledge hashFn [("papers/a.pdf", "A")] d2 "papers/a.pdf" =
        Except.ok (Option.some ["geneX activates geneY"]) :=
  ⟨(mark_then_query_cached hashFn [("papers/a.pdf", "A")] skeD0 "papers/a.pdf"
      "A" ["geneX activates geneY"] rfl (by simp)).1 rfl,
   (mark_then_query_cached hashFn [("papers/a.pdf", "A")] skeD0 "papers/a.pdf"
      "A" ["geneX activates geneY"] rfl (by simp)).2⟩
